import Mathlib

/-!
Shallow embedding of the deployment-lifecycle orchestrator of
`src/scaffolder-service/server.js` (backstage-scaffolder).

The external side effects of the Node.js service (filesystem writes, `kubectl`
and `gh` shell-outs, the SSE stream) are modelled as events recorded in an
explicit trace; the outcomes of external calls are supplied by an environment
record, one field per call site, so that every control-flow branch of the
source is represented.  Values that the source obtains from JavaScript string
operations are modelled over Lean `String`.
-/

namespace Scaffolder

/-- A lowercase-ASCII letter or digit, i.e. a character of `[a-z0-9]`. -/
def isAlnumLower (c : Char) : Bool :=
  (('a' ≤ c) && (c ≤ 'z')) || (('0' ≤ c) && (c ≤ '9'))

/-- Matches `([-a-z0-9]*[a-z0-9])?` : either empty, or every character in
`[-a-z0-9]` with the last one in `[a-z0-9]`. -/
def dnsTail : List Char → Bool
  | [] => true
  | [c] => isAlnumLower c
  | c :: rest => (isAlnumLower c || c = '-') && dnsTail rest

/-- The DNS-1123 label pattern `^[a-z0-9]([-a-z0-9]*[a-z0-9])?$` used by the
source both for `component_id` / `serviceName` validation and inside
`validateNamespace`. -/
def isDnsLabel (s : String) : Bool :=
  match s.data with
  | [] => false
  | c :: rest => isAlnumLower c && dnsTail rest

/-- `FORBIDDEN_NAMESPACES` from server.js line 25. -/
def FORBIDDEN_NAMESPACES : List String :=
  ["kube-system", "kube-public", "kube-node-lease"]

/-- `validateNamespace` from server.js lines 27-33: non-empty, DNS-1123
label, not in the forbidden set.  (Defined in the source but never invoked
by any request handler.) -/
def validateNamespace (ns : String) : Bool :=
  if ns = "" then false
  else if isDnsLabel ns = false then false
  else if FORBIDDEN_NAMESPACES.contains ns then false
  else true

/-- Outcome of one external shell-out (`execSync` / `execAsync`): success or a
thrown error carrying a message. -/
inductive ExecResult
  | ok
  | err (msg : String)
deriving DecidableEq, Repr

/-- `checkGitHubRepoExists` (server.js lines 56-65): returns `false` when the
integration is disabled; otherwise runs `gh repo view` and returns `true` on
success — the `catch` turns EVERY failure of the shell-out (repo absent, but
also network or auth errors) into `false`. -/
def checkGitHubRepoExists (githubEnabled : Bool) (ghRepoView : ExecResult) : Bool :=
  if githubEnabled = false then false
  else
    match ghRepoView with
    | .ok => true
    | .err _ => false

/-- JSON scalar values appearing in the persisted metadata record. -/
inductive JVal
  | s (v : String)
  | n (v : Nat)
deriving DecidableEq, Repr

/-- Body of `POST /api/scaffold` (server.js lines 131-141).  Optional fields
are `Option`; the JS `x || default` falsy-defaulting is modelled by
`Option.getD`. -/
structure ScaffoldRequest where
  component_id : String
  description : Option String
  owner : Option String
  port : Option Nat
  java_version : Option String
  persistence : String
  include_docker : Bool
  include_k8s : Bool
  target_namespace : Option String
deriving DecidableEq, Repr

/-- Environment for one `POST /api/scaffold` request: process configuration
plus the outcome of each external call the handler can make. -/
structure ScaffoldEnv where
  githubEnabled : Bool
  /-- outcome of `gh repo view OWNER/component_id` inside
  `checkGitHubRepoExists`. -/
  ghRepoView : ExecResult
  /-- `fs.existsSync(projectDir)` (server.js line 168). -/
  localExists : Bool
  /-- whether the `scaffold-metadata.json` write + fsync succeeds
  (server.js lines 208-217). -/
  metaWriteOk : Bool
  /-- `new Date().toISOString()`. -/
  now : String
  /-- outcome of `createGitHubRepo`. -/
  ghCreate : ExecResult
  /-- outcome of `pushToGitHub`. -/
  ghPush : ExecResult
  githubOwner : String
deriving DecidableEq, Repr

/-- `FORCED_TARGET_NAMESPACE` (server.js line 189): every scaffolded service is
forced to this namespace, regardless of `target_namespace`. -/
def FORCED_TARGET_NAMESPACE : String := "development"

/-- The resolved description (server.js line 144). -/
def resolvedDescription (req : ScaffoldRequest) : String :=
  req.description.getD "A Spring Boot microservice created with Backstage and Scaffolder"

/-- `initialMeta` (server.js lines 197-205), as the ordered key/value list that
`JSON.stringify` persists.  Note the record has no `persistence` key. -/
def initialMeta (req : ScaffoldRequest) (env : ScaffoldEnv) : List (String × JVal) :=
  [("namespace", .s FORCED_TARGET_NAMESPACE),
   ("owner", .s (req.owner.getD "unknown")),
   ("description", .s (resolvedDescription req)),
   ("lifecycle", .s "production"),
   ("createdAt", .s env.now),
   ("port", .n (req.port.getD 8080)),
   ("javaVersion", .s (req.java_version.getD "21"))]

/-- `PROJECTS_DIR`-rooted project directory (server.js lines 20, 166). -/
def projectDir (id : String) : String :=
  "/projects/scaffolded-projects/" ++ id

/-- `packageName` (server.js line 176). -/
def packageName (id : String) : String :=
  "com.example." ++ (id.replace "-" "")

/-- `appClassName` (server.js lines 228-231): capitalize each hyphen-separated
part, join, append `Application`. -/
def capitalizePart (s : String) : String :=
  match s.data with
  | [] => ""
  | c :: rest => String.mk (c.toUpper :: rest)

def appClassName (id : String) : String :=
  String.join ((id.splitOn "-").map capitalizePart) ++ "Application"

def controllerClassName (id : String) : String :=
  String.join ((id.splitOn "-").map capitalizePart) ++ "Controller"

/-- Observable actions of the scaffold handler, in program order.  The two
conflict probes are reads; everything else mutates the filesystem or the
hosted repository. -/
inductive Ev
  /-- `checkGitHubRepoExists` invocation (remote existence probe). -/
  | checkRemote
  /-- `fs.existsSync(projectDir)` (local existence probe). -/
  | checkLocal
  | mkdir (p : String)
  /-- write + fsync of `scaffold-metadata.json`; carries the record written
  and whether the write succeeded (the `catch` only logs). -/
  | metaWrite (meta : List (String × JVal)) (ok : Bool)
  | writeFile (p : String)
  | ghCreateRepo
  | ghPushRepo
deriving DecidableEq, Repr

/-- Whether an event mutates the filesystem / hosted repository. -/
def Ev.isMutation : Ev → Bool
  | .checkRemote => false
  | .checkLocal => false
  | _ => true

/-- `conflictType` values of the 409 responses (server.js lines 161, 171). -/
inductive ConflictType
  | github_repo
  | local_directory
deriving DecidableEq, Repr

inductive ScaffoldResponse
  /-- 400: invalid `component_id`. -/
  | badRequest
  /-- 409 with `conflictType`. -/
  | conflict (ct : ConflictType)
  /-- 200 `success: true`, carrying the `githubRepo` field. -/
  | ok (githubRepo : Option String)
deriving DecidableEq, Repr

/-- HTTP status of a scaffold response. -/
def ScaffoldResponse.status : ScaffoldResponse → Nat
  | .badRequest => 400
  | .conflict _ => 409
  | .ok _ => 200

/-- The file-generation phase (server.js lines 219-301), as the ordered list
of mutation events it performs.  File contents are produced by the external
template generators and are not modelled. -/
def genFiles (req : ScaffoldRequest) : List Ev :=
  let id := req.component_id
  [Ev.writeFile (projectDir id ++ "/pom.xml"),
   Ev.writeFile (projectDir id ++ "/src/main/resources/application.properties"),
   Ev.writeFile (projectDir id ++ "/" ++ appClassName id ++ ".java"),
   Ev.writeFile (projectDir id ++ "/" ++ controllerClassName id ++ ".java")]
  ++ (if req.persistence = "postgresql" then
        [Ev.writeFile (projectDir id ++ "/HelloWorld.java"),
         Ev.writeFile (projectDir id ++ "/HelloWorldRepository.java")]
      else [])
  ++ (if req.include_docker then [Ev.writeFile (projectDir id ++ "/Dockerfile")] else [])
  ++ (if req.include_k8s then
        [Ev.writeFile (projectDir id ++ "/k8s/deployment.yaml"),
         Ev.writeFile (projectDir id ++ "/k8s/service.yaml")]
        ++ (if req.persistence = "postgresql" then
              [Ev.writeFile (projectDir id ++ "/k8s/postgres-secret.yaml"),
               Ev.writeFile (projectDir id ++ "/k8s/postgres-statefulset.yaml"),
               Ev.writeFile (projectDir id ++ "/k8s/postgres-service.yaml")]
            else [])
      else [])
  ++ (if req.persistence = "postgresql" then
        [Ev.mkdir (projectDir id ++ "/src/main/resources/db/migration"),
         Ev.writeFile (projectDir id ++ "/V1__Initial_schema.sql"),
         Ev.writeFile (projectDir id ++ "/V2__Sample_data.sql")]
      else [])
  ++ [Ev.writeFile (projectDir id ++ "/catalog-info.yaml"),
      Ev.writeFile (projectDir id ++ "/README.md"),
      Ev.writeFile (projectDir id ++ "/.gitignore")]

/-- The GitHub phase (server.js lines 306-316): create then push, both inside
one `try` whose `catch` only logs — `githubRepoUrl` keeps the URL assigned by
a successful create even if the push then fails. -/
def githubPhase (env : ScaffoldEnv) (id : String) : List Ev × Option String :=
  if env.githubEnabled then
    match env.ghCreate with
    | .err _ => ([Ev.ghCreateRepo], none)
    | .ok =>
      let url := "https://github.com/" ++ env.githubOwner ++ "/" ++ id
      match env.ghPush with
      | .err _ => ([Ev.ghCreateRepo, Ev.ghPushRepo], some url)
      | .ok => ([Ev.ghCreateRepo, Ev.ghPushRepo], some url)
  else ([], none)

/-- `POST /api/scaffold` (server.js lines 129-359): returns the trace of
observable actions and the HTTP response.  Control flow follows the source:
id validation, remote conflict probe (only when GitHub is enabled), local
conflict probe, directory creation, early metadata persist (failure only
logged), file generation, GitHub create + push (failure only logged),
success response. -/
def scaffold (req : ScaffoldRequest) (env : ScaffoldEnv) : List Ev × ScaffoldResponse :=
  if isDnsLabel req.component_id = false then ([], .badRequest)
  else if env.githubEnabled && checkGitHubRepoExists env.githubEnabled env.ghRepoView then
    ([Ev.checkRemote], .conflict .github_repo)
  else
    let pre : List Ev := if env.githubEnabled then [Ev.checkRemote] else []
    if env.localExists then (pre ++ [Ev.checkLocal], .conflict .local_directory)
    else
      let id := req.component_id
      let mkdirs := [Ev.mkdir (projectDir id ++ "/src/main/java"),
                     Ev.mkdir (projectDir id ++ "/src/main/resources"),
                     Ev.mkdir (projectDir id ++ "/k8s")]
      let gh := githubPhase env id
      (pre ++ [Ev.checkLocal] ++ mkdirs
         ++ [Ev.metaWrite (initialMeta req env) env.metaWriteOk]
         ++ genFiles req ++ gh.1,
       .ok gh.2)

/-! ## Deploy stream (`GET /api/deploy/:serviceName/stream`, server.js 937-1176) -/

/-- Environment for one deploy request: filesystem state of the project plus
the outcome of each external call the handler can make. -/
structure DeployEnv where
  /-- `fs.existsSync(projectDir)`. -/
  projectExists : Bool
  /-- `fs.existsSync(k8sDir)`. -/
  k8sDirExists : Bool
  /-- `meta.namespace` read from `scaffold-metadata.json` (`none` when the
  file is missing, unreadable, or has no namespace). -/
  metaNamespace : Option String
  /-- `process.env.ALLOW_NAMESPACE_CREATION === 'true'`. -/
  allowNsCreation : Bool
  /-- outcome of `kubectl create namespace ... | kubectl apply -f -`. -/
  nsEnsure : ExecResult
  /-- when `nsEnsure` failed: whether the message contains `Forbidden` or
  `cannot get resource` (the soft-fail RBAC branch). -/
  nsEnsureForbidden : Bool
  /-- `fs.existsSync(dockerfilePath)`. -/
  dockerfileExists : Bool
  /-- outcome of the `docker build` + `minikube image load` try block
  (failure only logged). -/
  buildOk : Bool
  /-- `fs.existsSync` of `k8s/postgres-secret.yaml`. -/
  pgSecretExists : Bool
  /-- `fs.existsSync` of `k8s/postgres-service.yaml`. -/
  pgServiceExists : Bool
  /-- `fs.existsSync` of `k8s/postgres-statefulset.yaml`. -/
  pgStatefulSetExists : Bool
  /-- outcome of `kubectl apply -f <file>` per manifest file name. -/
  applyOk : String → Bool
  /-- i-th `kubectl get pods -l app=<svc>-postgres` probe: `none` when the
  shell-out throws, `some b` with b = output contains `Running`. -/
  pgPoll : Nat → Option Bool
  /-- i-th `kubectl get pods -l app=<svc>` probe, same convention. -/
  appPoll : Nat → Option Bool
  /-- outcome of the final `kubectl logs` (failure only logged). -/
  logsOk : Bool

/-- Observable events of a deploy run: SSE stream events (`log`, `error`,
`success`) interleaved with the cluster-mutating `kubectl apply` calls and
the readiness probes. -/
inductive DEv
  | log (m : String)
  | error (m : String)
  | success
  /-- successful `kubectl apply [-n ns] -f <file>`. -/
  | applyRes (ns : Option String) (file : String)
  /-- i-th PostgreSQL readiness probe and its outcome. -/
  | pgPollEv (i : Nat) (r : Option Bool)
  /-- i-th app-pod readiness probe and its outcome. -/
  | appPollEv (i : Nat) (r : Option Bool)
deriving DecidableEq, Repr

/-- `postgresFiles` (server.js lines 1045-1049): the PostgreSQL manifests in
their apply order — secret, then service, then statefulset. -/
def postgresFiles : List String :=
  ["postgres-secret.yaml", "postgres-service.yaml", "postgres-statefulset.yaml"]

def pgFileExists (env : DeployEnv) : String → Bool
  | "postgres-secret.yaml" => env.pgSecretExists
  | "postgres-service.yaml" => env.pgServiceExists
  | "postgres-statefulset.yaml" => env.pgStatefulSetExists
  | _ => false

/-- `maxPgAttempts` (server.js line 1071). -/
def maxPgAttempts : Nat := 30

/-- `maxAttempts` (server.js line 1125). -/
def maxAttempts : Nat := 30

/-- The namespace-ensure step (server.js lines 987-1008).  Returns its events
and whether the run continues. -/
def nsStep (env : DeployEnv) : List DEv × Bool :=
  match env.metaNamespace with
  | none => ([], true)
  | some n =>
    if env.allowNsCreation then
      match env.nsEnsure with
      | .ok =>
        ([DEv.log ("Ensuring namespace " ++ n ++ " exists..."),
          DEv.log ("Namespace " ++ n ++ " ensured")], true)
      | .err m =>
        if env.nsEnsureForbidden then
          ([DEv.log ("Ensuring namespace " ++ n ++ " exists..."),
            DEv.log ("Namespace ensure skipped due to RBAC: " ++ m)], true)
        else
          ([DEv.log ("Ensuring namespace " ++ n ++ " exists..."),
            DEv.error ("Failed to ensure namespace " ++ n ++ ": " ++ m)], false)
    else
      ([DEv.log ("Skipping namespace creation for " ++ n)], true)

/-- The optional image build step (server.js lines 1011-1039); never aborts
the run. -/
def buildStep (env : DeployEnv) : List DEv × Bool :=
  if env.dockerfileExists then
    if env.buildOk then
      ([DEv.log "Dockerfile found, building image locally...",
        DEv.log "Image built and loaded into Minikube"], true)
    else
      ([DEv.log "Dockerfile found, building image locally...",
        DEv.log "Docker build or image load failed"], true)
  else ([DEv.log "No Dockerfile present, skipping image build"], true)

/-- The PostgreSQL manifest loop (server.js lines 1051-1064): apply each
existing manifest in `postgresFiles` order; a failed apply emits `error` and
aborts. -/
def applyFiles (env : DeployEnv) : List String → List DEv × Bool
  | [] => ([], true)
  | f :: rest =>
    if pgFileExists env f then
      if env.applyOk f then
        let r := applyFiles env rest
        (DEv.log ("Applying " ++ f ++ "...") :: DEv.applyRes env.metaNamespace f :: r.1,
         r.2)
      else
        ([DEv.log ("Applying " ++ f ++ "..."),
          DEv.error ("Failed to apply " ++ f)], false)
    else applyFiles env rest

/-- The PostgreSQL readiness loop (server.js lines 1073-1093): poll until the
pod phase contains `Running`, at most `maxPgAttempts` probes; `fuel` is
`maxPgAttempts - pgAttempts`.  Returns the probe events and whether `Running`
was observed. -/
def pgWaitLoop (env : DeployEnv) : Nat → Nat → List DEv × Bool
  | _, 0 => ([], false)
  | attempt, fuel + 1 =>
    match env.pgPoll attempt with
    | some true =>
      ([DEv.pgPollEv attempt (some true), DEv.log "PostgreSQL is running!"], true)
    | r =>
      let rest := pgWaitLoop env (attempt + 1) fuel
      (DEv.pgPollEv attempt r :: rest.1, rest.2)

/-- The PostgreSQL wait step (server.js lines 1066-1099): only runs when
`postgres-statefulset.yaml` exists; exhausting the attempts emits the timeout
error and aborts. -/
def pgWaitStep (env : DeployEnv) : List DEv × Bool :=
  if env.pgStatefulSetExists then
    let r := pgWaitLoop env 0 maxPgAttempts
    if r.2 then (DEv.log "Waiting for PostgreSQL to be ready..." :: r.1, true)
    else
      (DEv.log "Waiting for PostgreSQL to be ready..." :: r.1
         ++ [DEv.error "Timeout waiting for PostgreSQL to start"], false)
  else ([], true)

/-- The app-pod readiness loop (server.js lines 1127-1145), same structure as
`pgWaitLoop`. -/
def appWaitLoop (env : DeployEnv) : Nat → Nat → List DEv × Bool
  | _, 0 => ([], false)
  | attempt, fuel + 1 =>
    match env.appPoll attempt with
    | some true =>
      ([DEv.appPollEv attempt (some true), DEv.log "Pod is running!"], true)
    | r =>
      let rest := appWaitLoop env (attempt + 1) fuel
      (DEv.appPollEv attempt r :: rest.1, rest.2)

/-- The app-pod wait step (server.js lines 1122-1150): always runs; exhausting
the attempts emits the timeout error and aborts. -/
def appWaitStep (env : DeployEnv) : List DEv × Bool :=
  let r := appWaitLoop env 0 maxAttempts
  if r.2 then (DEv.log "Waiting for pod to be ready..." :: r.1, true)
  else
    (DEv.log "Waiting for pod to be ready..." :: r.1
       ++ [DEv.error "Timeout waiting for pod to start"], false)

/-- The final log-tail fetch and terminal `success` event (server.js lines
1152-1170); the log fetch is best-effort. -/
def logsSuccessStep (env : DeployEnv) : List DEv :=
  [DEv.log "--- Pod Logs ---",
   (if env.logsOk then DEv.log "pod log tail" else DEv.log "Could not retrieve logs yet"),
   DEv.success]

/-- The SSE body of `GET /api/deploy/:serviceName/stream` (server.js lines
961-1175): the ordered event trace of one provisioning run.  Each aborting
branch ends the trace (`return res.end()`). -/
def deployStream (env : DeployEnv) : List DEv :=
  let hdr := [DEv.log "Starting deployment..."]
  if env.k8sDirExists = false then
    hdr ++ [DEv.error "No k8s directory found. Service was created without Kubernetes manifests."]
  else
    let n := nsStep env
    if n.2 = false then hdr ++ n.1
    else
      let b := buildStep env
      let a := applyFiles env postgresFiles
      let preApply := hdr ++ n.1 ++ b.1 ++ [DEv.log "Applying Kubernetes deployment..."]
      if a.2 = false then preApply ++ a.1
      else
        let w := pgWaitStep env
        if w.2 = false then preApply ++ a.1 ++ w.1
        else
          if env.applyOk "deployment.yaml" = false then
            preApply ++ a.1 ++ w.1 ++ [DEv.error "Deployment failed"]
          else
            let postDeploy := preApply ++ a.1 ++ w.1
              ++ [DEv.applyRes env.metaNamespace "deployment.yaml",
                  DEv.log "Applying Kubernetes service..."]
            if env.applyOk "service.yaml" = false then
              postDeploy ++ [DEv.error "Service creation failed"]
            else
              let pd := postDeploy ++ [DEv.applyRes env.metaNamespace "service.yaml"]
              let aw := appWaitStep env
              if aw.2 = false then pd ++ aw.1
              else pd ++ aw.1 ++ logsSuccessStep env

/-- `GET /api/deploy/:serviceName/stream` entry (server.js lines 937-949):
name validation and project existence check before the stream starts. -/
inductive DeployResult
  | badRequest
  | notFound
  | stream (events : List DEv)

def deploy (serviceName : String) (env : DeployEnv) : DeployResult :=
  if isDnsLabel serviceName = false then .badRequest
  else if env.projectExists = false then .notFound
  else .stream (deployStream env)

/-- The successful `kubectl apply` calls of a trace, in order, as
(namespace, manifest file) pairs. -/
def applyOrder (l : List DEv) : List (Option String × String) :=
  l.filterMap (fun e => match e with
    | DEv.applyRes ns f => some (ns, f)
    | _ => none)

/-- The full expected apply order of a stateful-store run. -/
def fullApplyOrder : List String :=
  ["postgres-secret.yaml", "postgres-service.yaml", "postgres-statefulset.yaml",
   "deployment.yaml", "service.yaml"]

/-- Projection keeping the apply calls and the successful PostgreSQL
readiness probes, used to express that the stateful workload became ready
between its apply and the app workload's apply. -/
def keyEvents (l : List DEv) : List DEv :=
  l.filter (fun e => match e with
    | DEv.applyRes _ _ => true
    | DEv.pgPollEv _ (some true) => true
    | _ => false)

/-- Counts the app-pod readiness probes of a trace. -/
def appPollCount (l : List DEv) : Nat :=
  l.countP (fun e => match e with
    | DEv.appPollEv _ _ => true
    | _ => false)

/-! ## Teardown (`DELETE /api/cleanup/:serviceName`, server.js 1255-1368) -/

/-- Environment for one cleanup request: the outcome of each delete call. -/
structure CleanupEnv where
  githubEnabled : Bool
  /-- outcome of `gh repo delete`. -/
  ghDelete : ExecResult
  /-- `fs.existsSync(metaPath)`. -/
  metaExists : Bool
  /-- whether reading/parsing `scaffold-metadata.json` throws (the throw is
  caught by the catch of the whole kubernetes block). -/
  metaReadError : Bool
  /-- `meta.namespace` when the metadata file parses. -/
  metaNamespace : Option String
  /-- outcome of `kubectl delete deployment <svc> --ignore-not-found=true`. -/
  delDeployment : ExecResult
  /-- outcome of `kubectl delete service <svc>-service --ignore-not-found=true`. -/
  delService : ExecResult
  delPgStatefulSet : ExecResult
  delPgService : ExecResult
  delPgSecret : ExecResult
  delPgPvc : ExecResult
  /-- `fs.existsSync(projectDir)`. -/
  localDirExists : Bool
  /-- outcome of `fs.rmSync(projectDir, ...)` (a throw reaches the outer
  catch and turns the response into a 500). -/
  rmLocal : ExecResult
deriving DecidableEq, Repr

/-- The resources whose delete calls the handler can attempt. -/
inductive CRes
  | githubRepo
  | deployment
  | service
  | pgStatefulSet
  | pgService
  | pgSecret
  | pgPvc
  | localDir
deriving DecidableEq, Repr

def execOk : ExecResult → Bool
  | .ok => true
  | .err _ => false

/-- The `results.kubernetes.postgres` sub-record. -/
structure PgResults where
  statefulset : Bool := false
  service : Bool := false
  secret : Bool := false
  pvc : Bool := false
deriving DecidableEq, Repr

/-- The `results.kubernetes` sub-record. -/
structure K8sResults where
  deployment : Bool := false
  service : Bool := false
  postgres : PgResults := {}
  error : Option String := none
deriving DecidableEq, Repr

/-- A `{ deleted, error }` sub-record (`results.github`, `results.localStorage`). -/
structure SubResult where
  deleted : Bool := false
  error : Option String := none
deriving DecidableEq, Repr

/-- The aggregate `results` object of the cleanup handler. -/
structure CleanupResults where
  github : SubResult := {}
  kubernetes : K8sResults := {}
  localStorage : SubResult := {}
deriving DecidableEq, Repr

/-- The `-n <namespace>` argument resolution of the kubernetes block
(server.js lines 1290-1298): the metadata namespace when present, defaulting
to `development` when the metadata file is missing. -/
def nsArgOf (env : CleanupEnv) : String :=
  if env.metaExists then
    match env.metaNamespace with
    | some n => "-n " ++ n
    | none => ""
  else "-n development"

/-- The kubernetes block of the cleanup handler (server.js lines 1289-1345):
one `try` wraps the metadata read, the deployment delete and the service
delete, so a throw in any of them skips everything after it inside the block
(recording only `results.kubernetes.error`); each PostgreSQL delete then has
its own inner `try` whose catch only logs.  Returns the attempted deletes in
order and the `results.kubernetes` record. -/
def k8sBlock (env : CleanupEnv) : List CRes × K8sResults :=
  if env.metaExists && env.metaReadError then
    ([], { error := some "metadata parse error" })
  else
    match env.delDeployment with
    | .err m => ([CRes.deployment], { error := some m })
    | .ok =>
      match env.delService with
      | .err m =>
        ([CRes.deployment, CRes.service], { deployment := true, error := some m })
      | .ok =>
        ([CRes.deployment, CRes.service, CRes.pgStatefulSet, CRes.pgService,
          CRes.pgSecret, CRes.pgPvc],
         { deployment := true, service := true,
           postgres :=
             { statefulset := execOk env.delPgStatefulSet,
               service := execOk env.delPgService,
               secret := execOk env.delPgSecret,
               pvc := execOk env.delPgPvc },
           error := none })

/-- Body of `DELETE /api/cleanup/:serviceName` after name validation
(server.js lines 1262-1367): GitHub delete (own try/catch), kubernetes
block, local directory removal.  Returns the attempted deletes in order, the
aggregate results, and whether the response is the 200 success (a throw of
`fs.rmSync` reaches the outer catch and yields the 500 branch). -/
def cleanupRun (env : CleanupEnv) : List CRes × CleanupResults × Bool :=
  let gh : List CRes × SubResult :=
    if env.githubEnabled then
      match env.ghDelete with
      | .ok => ([CRes.githubRepo], { deleted := true })
      | .err m => ([CRes.githubRepo], { deleted := false, error := some m })
    else ([], {})
  let k := k8sBlock env
  if env.localDirExists then
    match env.rmLocal with
    | .ok =>
      (gh.1 ++ k.1 ++ [CRes.localDir],
       ({ github := gh.2, kubernetes := k.2, localStorage := { deleted := true } }, true))
    | .err _ =>
      (gh.1 ++ k.1 ++ [CRes.localDir],
       ({ github := gh.2, kubernetes := k.2, localStorage := {} }, false))
  else
    (gh.1 ++ k.1, ({ github := gh.2, kubernetes := k.2, localStorage := {} }, true))

/-- `DELETE /api/cleanup/:serviceName` (server.js lines 1255-1368): `none`
models the 400 for an invalid service name. -/
def cleanup (serviceName : String) (env : CleanupEnv) :
    Option (List CRes × CleanupResults × Bool) :=
  if isDnsLabel serviceName = false then none
  else some (cleanupRun env)

/-! ## Concrete instances used by counterexamples and witnesses -/

/-- A representative valid creation request with persistence `none`. -/
def reqNone : ScaffoldRequest :=
  { component_id := "user-service", description := some "demo", owner := some "team-a",
    port := some 8080, java_version := some "21", persistence := "none",
    include_docker := true, include_k8s := true, target_namespace := none }

/-- A request that asks for the placement `custom-ns`. -/
def reqCustomNs : ScaffoldRequest :=
  { reqNone with component_id := "orders-svc", persistence := "postgresql",
                 target_namespace := some "custom-ns" }

/-- Scaffold environment: GitHub disabled, everything succeeds. -/
def envOkS : ScaffoldEnv :=
  { githubEnabled := false, ghRepoView := .err "disabled", localExists := false,
    metaWriteOk := true, now := "2026-01-01T00:00:00.000Z",
    ghCreate := .ok, ghPush := .ok, githubOwner := "felipeazv" }

/-- Scaffold environment: GitHub enabled but the `gh repo view` probe throws
(network failure). -/
def envRemoteErr : ScaffoldEnv :=
  { envOkS with githubEnabled := true, ghRepoView := .err "connect ETIMEDOUT" }

/-- Scaffold environment: the metadata write throws. -/
def envMetaFail : ScaffoldEnv :=
  { envOkS with metaWriteOk := false }

/-- Deploy environment of a stateful-store project where every external call
succeeds and both pods report `Running` at once. -/
def envAllOk : DeployEnv :=
  { projectExists := true, k8sDirExists := true, metaNamespace := some "development",
    allowNsCreation := false, nsEnsure := .ok, nsEnsureForbidden := false,
    dockerfileExists := true, buildOk := true,
    pgSecretExists := true, pgServiceExists := true, pgStatefulSetExists := true,
    applyOk := fun _ => true, pgPoll := fun _ => some true, appPoll := fun _ => some true,
    logsOk := true }

/-- Same as `envAllOk` but the metadata names the system-reserved namespace
`kube-system`. -/
def envKubeNs : DeployEnv :=
  { envAllOk with metaNamespace := some "kube-system" }

/-- Same as `envAllOk` but the app pod never reports `Running`. -/
def envAppStuck : DeployEnv :=
  { envAllOk with appPoll := fun _ => some false }

/-- Cleanup environment where the app-workload (deployment) delete throws and
every other call would succeed. -/
def envDepFail : CleanupEnv :=
  { githubEnabled := false, ghDelete := .ok, metaExists := true, metaReadError := false,
    metaNamespace := some "development", delDeployment := .err "connection refused",
    delService := .ok, delPgStatefulSet := .ok, delPgService := .ok, delPgSecret := .ok,
    delPgPvc := .ok, localDirExists := true, rmLocal := .ok }

/-- Cleanup environment where every delete succeeds. -/
def envCleanOk : CleanupEnv :=
  { envDepFail with delDeployment := .ok }

/-! ## Theorems -/

/-- C2: a creation request whose identifier already exists (hosted repository
seen by the probe, or local directory) is rejected with HTTP 409 and a
`conflictType` naming the kind (`github_repo` embeds the spec's
hosted-repository kind, `local_directory` the local one); no mutation event
occurs, and when the remote integration is enabled the remote probe is the
very first action of the handler, hence precedes the local probe. -/
theorem c2_conflict_guard (req : ScaffoldRequest) (env : ScaffoldEnv)
    (hid : isDnsLabel req.component_id = true)
    (hconf : ((env.githubEnabled && checkGitHubRepoExists env.githubEnabled env.ghRepoView)
               || env.localExists) = true) :
    (scaffold req env).2.status = 409 ∧
    (scaffold req env).2 = ScaffoldResponse.conflict
      (if env.githubEnabled && checkGitHubRepoExists env.githubEnabled env.ghRepoView
       then ConflictType.github_repo else ConflictType.local_directory) ∧
    (∀ e ∈ (scaffold req env).1, e.isMutation = false) ∧
    (env.githubEnabled = true → (scaffold req env).1.head? = some Ev.checkRemote) := by
  cases hg : env.githubEnabled && checkGitHubRepoExists env.githubEnabled env.ghRepoView with
  | true =>
    simp [scaffold, hid, hg, ScaffoldResponse.status, Ev.isMutation]
  | false =>
    have hl : env.localExists = true := by
      rw [hg] at hconf; simpa using hconf
    cases he : env.githubEnabled with
    | true =>
      rw [he, Bool.true_and] at hg
      simp [scaffold, hid, hg, hl, he, ScaffoldResponse.status, Ev.isMutation]
    | false =>
      simp [scaffold, hid, hg, hl, he, ScaffoldResponse.status, Ev.isMutation]

/-- C2 witness: a re-creation of `user-service` while it exists locally (GitHub
disabled) is a 409 `local_directory` conflict with no prior mutation. -/
theorem c2_conflict_guard_witness :
    (scaffold reqNone { envOkS with localExists := true }).2.status = 409 ∧
    (scaffold reqNone { envOkS with localExists := true }).2 = ScaffoldResponse.conflict
      (if { envOkS with localExists := true }.githubEnabled &&
           checkGitHubRepoExists { envOkS with localExists := true }.githubEnabled
             { envOkS with localExists := true }.ghRepoView
       then ConflictType.github_repo else ConflictType.local_directory) ∧
    (∀ e ∈ (scaffold reqNone { envOkS with localExists := true }).1, e.isMutation = false) ∧
    ({ envOkS with localExists := true }.githubEnabled = true →
      (scaffold reqNone { envOkS with localExists := true }).1.head? = some Ev.checkRemote) :=
  c2_conflict_guard reqNone { envOkS with localExists := true } (by decide) (by decide)

/-- C3 counterexample: GitHub integration enabled, the remote probe throws a
network error — yet the request is answered 200 and mutations are performed:
the guard treated the ambiguous remote state as clear instead of surfacing an
error. -/
theorem c3_remote_check_counterexample :
    envRemoteErr.githubEnabled = true ∧
    envRemoteErr.ghRepoView = ExecResult.err "connect ETIMEDOUT" ∧
    (scaffold reqNone envRemoteErr).2.status = 200 ∧
    (scaffold reqNone envRemoteErr).1.any (fun e => e.isMutation) = true := by
  decide

/-- C3 as amended: when the integration is enabled and the remote probe fails,
`checkGitHubRepoExists` swallows the error and returns `false`, and creation
proceeds as if the identifier were clear (200 response, mutations performed);
no error is surfaced to the caller. -/
theorem c3_remote_check_fails_open (req : ScaffoldRequest) (env : ScaffoldEnv)
    (msg : String)
    (hid : isDnsLabel req.component_id = true)
    (hen : env.githubEnabled = true)
    (hfail : env.ghRepoView = ExecResult.err msg)
    (hlocal : env.localExists = false) :
    checkGitHubRepoExists env.githubEnabled env.ghRepoView = false ∧
    (scaffold req env).2.status = 200 ∧
    Ev.mkdir (projectDir req.component_id ++ "/src/main/java") ∈ (scaffold req env).1 := by
  have hch : checkGitHubRepoExists true env.ghRepoView = false := by
    simp [checkGitHubRepoExists, hfail]
  refine ⟨by rw [hen]; exact hch, ?_, ?_⟩ <;>
    simp [scaffold, hid, hen, hch, hlocal, ScaffoldResponse.status]

/-- C3 amended witness. -/
theorem c3_remote_check_fails_open_witness :
    checkGitHubRepoExists envRemoteErr.githubEnabled envRemoteErr.ghRepoView = false ∧
    (scaffold reqNone envRemoteErr).2.status = 200 ∧
    Ev.mkdir (projectDir reqNone.component_id ++ "/src/main/java") ∈
      (scaffold reqNone envRemoteErr).1 :=
  c3_remote_check_fails_open reqNone envRemoteErr "connect ETIMEDOUT"
    (by decide) rfl rfl rfl

/-- C6 counterexample: requesting placement `custom-ns` yields a successful
creation whose persisted metadata record carries the fixed namespace
`development` — the caller-supplied placement is overridden, not honored. -/
theorem c6_placement_counterexample :
    reqCustomNs.target_namespace = some "custom-ns" ∧
    (scaffold reqCustomNs envOkS).2.status = 200 ∧
    Ev.metaWrite (initialMeta reqCustomNs envOkS) true ∈ (scaffold reqCustomNs envOkS).1 ∧
    (initialMeta reqCustomNs envOkS).lookup "namespace" = some (JVal.s "development") ∧
    "development" ≠ "custom-ns" := by
  decide

/-- No metadata write occurs inside the file-generation phase. -/
theorem metaWrite_not_mem_genFiles (req : ScaffoldRequest) (m : List (String × JVal))
    (ok : Bool) : Ev.metaWrite m ok ∉ genFiles req := by
  intro h
  by_cases hp : req.persistence = "postgresql" <;>
    by_cases hd : req.include_docker <;>
    by_cases hk : req.include_k8s <;>
    simp [genFiles, hp, hd, hk] at h

/-- No metadata write occurs inside the GitHub phase. -/
theorem metaWrite_not_mem_githubPhase (env : ScaffoldEnv) (id : String)
    (m : List (String × JVal)) (ok : Bool) :
    Ev.metaWrite m ok ∉ (githubPhase env id).1 := by
  intro h
  cases hge : env.githubEnabled <;>
    cases hgc : env.ghCreate <;>
    cases hgp : env.ghPush <;>
    simp [githubPhase, hge, hgc, hgp] at h

/-- C6 as amended: the caller-supplied placement is ignored — every metadata
record the scaffold handler writes carries the fixed namespace
`development` (`FORCED_TARGET_NAMESPACE`), for every request. -/
theorem c6_placement_forced (req : ScaffoldRequest) (env : ScaffoldEnv) :
    (initialMeta req env).lookup "namespace" = some (JVal.s FORCED_TARGET_NAMESPACE) ∧
    (∀ m ok, Ev.metaWrite m ok ∈ (scaffold req env).1 → m = initialMeta req env) := by
  constructor
  · rfl
  · intro m ok hm
    by_cases hid : isDnsLabel req.component_id = false
    · simp [scaffold, hid] at hm
    · rw [Bool.not_eq_false] at hid
      cases hg : env.githubEnabled && checkGitHubRepoExists env.githubEnabled env.ghRepoView with
      | true => simp [scaffold, hid, hg] at hm
      | false =>
        cases hl : env.localExists with
        | true =>
          cases he : env.githubEnabled with
          | true =>
            rw [he, Bool.true_and] at hg
            simp [scaffold, hid, hg, hl, he] at hm
          | false => simp [scaffold, hid, hg, hl, he] at hm
        | false =>
          simp [scaffold, hid, hg, hl,
                metaWrite_not_mem_genFiles req m ok,
                metaWrite_not_mem_githubPhase env req.component_id m ok] at hm
          exact hm.1

/-- C6 amended witness. -/
theorem c6_placement_forced_witness :
    (initialMeta reqCustomNs envOkS).lookup "namespace" =
      some (JVal.s FORCED_TARGET_NAMESPACE) ∧
    (∀ m ok, Ev.metaWrite m ok ∈ (scaffold reqCustomNs envOkS).1 →
      m = initialMeta reqCustomNs envOkS) :=
  c6_placement_forced reqCustomNs envOkS

/-- C8 counterexample: `user-service` is created successfully with persistence
`none`, yet the persisted metadata record has NO `persistence` key at all —
the record does not show the persistence mode. -/
theorem c8_metadata_counterexample :
    reqNone.persistence = "none" ∧
    (scaffold reqNone envOkS).2.status = 200 ∧
    Ev.metaWrite (initialMeta reqNone envOkS) true ∈ (scaffold reqNone envOkS).1 ∧
    (initialMeta reqNone envOkS).lookup "persistence" = none := by
  decide

/-- C8 as amended: for every request the persisted metadata record holds
exactly the keys namespace, owner, description, lifecycle, createdAt, port,
javaVersion — the persistence mode chosen at creation time is not recorded. -/
theorem c8_metadata_keys (req : ScaffoldRequest) (env : ScaffoldEnv) :
    (initialMeta req env).map Prod.fst =
      ["namespace", "owner", "description", "lifecycle", "createdAt", "port",
       "javaVersion"] ∧
    (initialMeta req env).lookup "persistence" = none := by
  exact ⟨rfl, rfl⟩

/-- C10: when the metadata persist fails, the error is caught and only
logged — the scaffold run still creates the project directories, writes all
remaining generated files, and answers 200, leaving a project with no
metadata record on disk. -/
theorem c10_meta_write_failure_ignored (req : ScaffoldRequest) (env : ScaffoldEnv)
    (hid : isDnsLabel req.component_id = true)
    (hg : (env.githubEnabled && checkGitHubRepoExists env.githubEnabled env.ghRepoView)
            = false)
    (hl : env.localExists = false)
    (hm : env.metaWriteOk = false) :
    (scaffold req env).2.status = 200 ∧
    Ev.metaWrite (initialMeta req env) false ∈ (scaffold req env).1 ∧
    Ev.writeFile (projectDir req.component_id ++ "/pom.xml") ∈ (scaffold req env).1 ∧
    Ev.writeFile (projectDir req.component_id ++ "/catalog-info.yaml") ∈
      (scaffold req env).1 ∧
    Ev.writeFile (projectDir req.component_id ++ "/README.md") ∈ (scaffold req env).1 ∧
    Ev.writeFile (projectDir req.component_id ++ "/.gitignore") ∈ (scaffold req env).1 := by
  cases he : env.githubEnabled with
  | true =>
    rw [he, Bool.true_and] at hg
    refine ⟨?_, ?_, ?_, ?_, ?_, ?_⟩ <;>
      simp [scaffold, hid, hg, hl, hm, he, genFiles, ScaffoldResponse.status]
  | false =>
    refine ⟨?_, ?_, ?_, ?_, ?_, ?_⟩ <;>
      simp [scaffold, hid, hl, hm, he, genFiles, ScaffoldResponse.status,
            checkGitHubRepoExists]

/-- C10 witness. -/
theorem c10_meta_write_failure_ignored_witness :
    (scaffold reqNone envMetaFail).2.status = 200 ∧
    Ev.metaWrite (initialMeta reqNone envMetaFail) false ∈ (scaffold reqNone envMetaFail).1 ∧
    Ev.writeFile (projectDir reqNone.component_id ++ "/pom.xml") ∈
      (scaffold reqNone envMetaFail).1 ∧
    Ev.writeFile (projectDir reqNone.component_id ++ "/catalog-info.yaml") ∈
      (scaffold reqNone envMetaFail).1 ∧
    Ev.writeFile (projectDir reqNone.component_id ++ "/README.md") ∈
      (scaffold reqNone envMetaFail).1 ∧
    Ev.writeFile (projectDir reqNone.component_id ++ "/.gitignore") ∈
      (scaffold reqNone envMetaFail).1 :=
  c10_meta_write_failure_ignored reqNone envMetaFail (by decide) rfl rfl rfl

/-! ### Structure lemmas for the deploy stream -/

/-- The namespace step emits only `log` and `error` events. -/
theorem mem_nsStep (env : DeployEnv) :
    ∀ e ∈ (nsStep env).1, (∃ m, e = DEv.log m) ∨ (∃ m, e = DEv.error m) := by
  intro e he
  rcases hm : env.metaNamespace with _ | n <;>
    rcases ha : env.allowNsCreation <;>
    rcases hne : env.nsEnsure with _ | m2 <;>
    rcases hf : env.nsEnsureForbidden <;>
    simp [nsStep, hm, ha, hne, hf] at he <;>
    rcases he with rfl | rfl <;> simp

/-- The build step emits only `log` events. -/
theorem mem_buildStep (env : DeployEnv) :
    ∀ e ∈ (buildStep env).1, ∃ m, e = DEv.log m := by
  intro e he
  rcases hd : env.dockerfileExists <;>
    rcases hb : env.buildOk <;>
    simp [buildStep, hd, hb] at he <;>
    rcases he with rfl | rfl <;> simp

/-- The manifest loop emits only `log`, `error` and `applyRes` events, the
latter carrying the run's namespace and a file of the input list. -/
theorem mem_applyFiles (env : DeployEnv) (fs : List String) :
    ∀ e ∈ (applyFiles env fs).1,
      (∃ m, e = DEv.log m) ∨ (∃ m, e = DEv.error m) ∨
      (∃ f, f ∈ fs ∧ e = DEv.applyRes env.metaNamespace f) := by
  induction fs with
  | nil => intro e he; simp [applyFiles] at he
  | cons g rest ih =>
    intro e he
    by_cases hex : pgFileExists env g
    · by_cases hap : env.applyOk g
      · simp [applyFiles, hex, hap] at he
        rcases he with rfl | rfl | he
        · exact Or.inl ⟨_, rfl⟩
        · exact Or.inr (Or.inr ⟨g, by simp⟩)
        · rcases ih e he with h | h | ⟨f, hf, rfl⟩
          · exact Or.inl h
          · exact Or.inr (Or.inl h)
          · exact Or.inr (Or.inr ⟨f, by simp [hf]⟩)
      · simp [applyFiles, hex, hap] at he
        rcases he with rfl | rfl
        · exact Or.inl ⟨_, rfl⟩
        · exact Or.inr (Or.inl ⟨_, rfl⟩)
    · simp only [applyFiles, hex, if_neg] at he
      rcases ih e (by simpa using he) with h | h | ⟨f, hf, rfl⟩
      · exact Or.inl h
      · exact Or.inr (Or.inl h)
      · exact Or.inr (Or.inr ⟨f, by simp [hf]⟩)

/-- The PostgreSQL readiness loop emits only probe and `log` events. -/
theorem mem_pgWaitLoop (env : DeployEnv) (a fu : Nat) :
    ∀ e ∈ (pgWaitLoop env a fu).1,
      (∃ i r, e = DEv.pgPollEv i r) ∨ (∃ m, e = DEv.log m) := by
  induction fu generalizing a with
  | zero => intro e he; simp [pgWaitLoop] at he
  | succ fu ih =>
    intro e he
    rcases hp : env.pgPoll a with _ | b
    · simp [pgWaitLoop, hp] at he
      rcases he with rfl | he
      · exact Or.inl ⟨_, _, rfl⟩
      · exact ih (a + 1) e he
    · cases b with
      | true =>
        simp [pgWaitLoop, hp] at he
        rcases he with rfl | rfl
        · exact Or.inl ⟨_, _, rfl⟩
        · exact Or.inr ⟨_, rfl⟩
      | false =>
        simp [pgWaitLoop, hp] at he
        rcases he with rfl | he
        · exact Or.inl ⟨_, _, rfl⟩
        · exact ih (a + 1) e he

/-- The PostgreSQL wait step emits only probe, `log` and `error` events. -/
theorem mem_pgWaitStep (env : DeployEnv) :
    ∀ e ∈ (pgWaitStep env).1,
      (∃ i r, e = DEv.pgPollEv i r) ∨ (∃ m, e = DEv.log m) ∨ (∃ m, e = DEv.error m) := by
  intro e he
  rcases hx : env.pgStatefulSetExists <;>
    rcases hr : (pgWaitLoop env 0 maxPgAttempts).2 <;>
    simp [pgWaitStep, hx, hr] at he
  · rcases he with rfl | he | rfl
    · exact Or.inr (Or.inl ⟨_, rfl⟩)
    · rcases mem_pgWaitLoop env 0 maxPgAttempts e he with h | h
      · exact Or.inl h
      · exact Or.inr (Or.inl h)
    · exact Or.inr (Or.inr ⟨_, rfl⟩)
  · rcases he with rfl | he
    · exact Or.inr (Or.inl ⟨_, rfl⟩)
    · rcases mem_pgWaitLoop env 0 maxPgAttempts e he with h | h
      · exact Or.inl h
      · exact Or.inr (Or.inl h)

/-- The app readiness loop emits only probe and `log` events. -/
theorem mem_appWaitLoop (env : DeployEnv) (a fu : Nat) :
    ∀ e ∈ (appWaitLoop env a fu).1,
      (∃ i r, e = DEv.appPollEv i r) ∨ (∃ m, e = DEv.log m) := by
  induction fu generalizing a with
  | zero => intro e he; simp [appWaitLoop] at he
  | succ fu ih =>
    intro e he
    rcases hp : env.appPoll a with _ | b
    · simp [appWaitLoop, hp] at he
      rcases he with rfl | he
      · exact Or.inl ⟨_, _, rfl⟩
      · exact ih (a + 1) e he
    · cases b with
      | true =>
        simp [appWaitLoop, hp] at he
        rcases he with rfl | rfl
        · exact Or.inl ⟨_, _, rfl⟩
        · exact Or.inr ⟨_, rfl⟩
      | false =>
        simp [appWaitLoop, hp] at he
        rcases he with rfl | he
        · exact Or.inl ⟨_, _, rfl⟩
        · exact ih (a + 1) e he

/-- The app wait step emits only probe, `log` and `error` events. -/
theorem mem_appWaitStep (env : DeployEnv) :
    ∀ e ∈ (appWaitStep env).1,
      (∃ i r, e = DEv.appPollEv i r) ∨ (∃ m, e = DEv.log m) ∨ (∃ m, e = DEv.error m) := by
  intro e he
  rcases hr : (appWaitLoop env 0 maxAttempts).2 <;>
    simp [appWaitStep, hr] at he
  · rcases he with rfl | he | rfl
    · exact Or.inr (Or.inl ⟨_, rfl⟩)
    · rcases mem_appWaitLoop env 0 maxAttempts e he with h | h
      · exact Or.inl h
      · exact Or.inr (Or.inl h)
    · exact Or.inr (Or.inr ⟨_, rfl⟩)
  · rcases he with rfl | he
    · exact Or.inr (Or.inl ⟨_, rfl⟩)
    · rcases mem_appWaitLoop env 0 maxAttempts e he with h | h
      · exact Or.inl h
      · exact Or.inr (Or.inl h)

/-- The terminal step emits only `log` events and `success`. -/
theorem mem_logsSuccessStep (env : DeployEnv) :
    ∀ e ∈ logsSuccessStep env, (∃ m, e = DEv.log m) ∨ e = DEv.success := by
  intro e he
  rcases hl : env.logsOk <;> simp [logsSuccessStep, hl] at he <;>
    rcases he with rfl | rfl | rfl <;> simp

/-! ### Projection lemmas -/

/-- No `kubectl apply` happens inside the namespace step. -/
theorem applyOrder_nsStep (env : DeployEnv) : applyOrder (nsStep env).1 = [] := by
  rw [applyOrder, List.filterMap_eq_nil_iff]
  intro e he
  rcases mem_nsStep env e he with ⟨m, rfl⟩ | ⟨m, rfl⟩ <;> rfl

/-- No `kubectl apply` happens inside the build step. -/
theorem applyOrder_buildStep (env : DeployEnv) : applyOrder (buildStep env).1 = [] := by
  rw [applyOrder, List.filterMap_eq_nil_iff]
  intro e he
  rcases mem_buildStep env e he with ⟨m, rfl⟩
  rfl

/-- No `kubectl apply` happens inside the PostgreSQL wait step. -/
theorem applyOrder_pgWaitStep (env : DeployEnv) : applyOrder (pgWaitStep env).1 = [] := by
  rw [applyOrder, List.filterMap_eq_nil_iff]
  intro e he
  rcases mem_pgWaitStep env e he with ⟨i, r, rfl⟩ | ⟨m, rfl⟩ | ⟨m, rfl⟩ <;> rfl

/-- No `kubectl apply` happens inside the app wait step. -/
theorem applyOrder_appWaitStep (env : DeployEnv) : applyOrder (appWaitStep env).1 = [] := by
  rw [applyOrder, List.filterMap_eq_nil_iff]
  intro e he
  rcases mem_appWaitStep env e he with ⟨i, r, rfl⟩ | ⟨m, rfl⟩ | ⟨m, rfl⟩ <;> rfl

/-- No `kubectl apply` happens inside the terminal step. -/
theorem applyOrder_logsSuccessStep (env : DeployEnv) :
    applyOrder (logsSuccessStep env) = [] := by
  rw [applyOrder, List.filterMap_eq_nil_iff]
  intro e he
  rcases mem_logsSuccessStep env e he with ⟨m, rfl⟩ | rfl <;> rfl

/-- `keyEvents` of the namespace step is empty. -/
theorem keyEvents_nsStep (env : DeployEnv) : keyEvents (nsStep env).1 = [] := by
  rw [keyEvents, List.filter_eq_nil_iff]
  intro e he
  rcases mem_nsStep env e he with ⟨m, rfl⟩ | ⟨m, rfl⟩ <;> simp

/-- `keyEvents` of the build step is empty. -/
theorem keyEvents_buildStep (env : DeployEnv) : keyEvents (buildStep env).1 = [] := by
  rw [keyEvents, List.filter_eq_nil_iff]
  intro e he
  rcases mem_buildStep env e he with ⟨m, rfl⟩
  simp

/-- `keyEvents` of the app wait step is empty (it emits app probes, not
PostgreSQL probes). -/
theorem keyEvents_appWaitStep (env : DeployEnv) : keyEvents (appWaitStep env).1 = [] := by
  rw [keyEvents, List.filter_eq_nil_iff]
  intro e he
  rcases mem_appWaitStep env e he with ⟨i, r, rfl⟩ | ⟨m, rfl⟩ | ⟨m, rfl⟩ <;> simp

/-- `keyEvents` of the terminal step is empty. -/
theorem keyEvents_logsSuccessStep (env : DeployEnv) :
    keyEvents (logsSuccessStep env) = [] := by
  rw [keyEvents, List.filter_eq_nil_iff]
  intro e he
  rcases mem_logsSuccessStep env e he with ⟨m, rfl⟩ | rfl <;> simp

/-- No app probe occurs in the namespace step. -/
theorem appPollCount_nsStep (env : DeployEnv) : appPollCount (nsStep env).1 = 0 := by
  rw [appPollCount, List.countP_eq_zero]
  intro e he
  rcases mem_nsStep env e he with ⟨m, rfl⟩ | ⟨m, rfl⟩ <;> simp

/-- No app probe occurs in the build step. -/
theorem appPollCount_buildStep (env : DeployEnv) : appPollCount (buildStep env).1 = 0 := by
  rw [appPollCount, List.countP_eq_zero]
  intro e he
  rcases mem_buildStep env e he with ⟨m, rfl⟩
  simp

/-- No app probe occurs in the manifest loop. -/
theorem appPollCount_applyFiles (env : DeployEnv) (fs : List String) :
    appPollCount (applyFiles env fs).1 = 0 := by
  rw [appPollCount, List.countP_eq_zero]
  intro e he
  rcases mem_applyFiles env fs e he with ⟨m, rfl⟩ | ⟨m, rfl⟩ | ⟨f, _, rfl⟩ <;> simp

/-- No app probe occurs in the PostgreSQL wait step. -/
theorem appPollCount_pgWaitStep (env : DeployEnv) :
    appPollCount (pgWaitStep env).1 = 0 := by
  rw [appPollCount, List.countP_eq_zero]
  intro e he
  rcases mem_pgWaitStep env e he with ⟨i, r, rfl⟩ | ⟨m, rfl⟩ | ⟨m, rfl⟩ <;> simp

/-- No app probe occurs in the terminal step. -/
theorem appPollCount_logsSuccessStep (env : DeployEnv) :
    appPollCount (logsSuccessStep env) = 0 := by
  rw [appPollCount, List.countP_eq_zero]
  intro e he
  rcases mem_logsSuccessStep env e he with ⟨m, rfl⟩ | rfl <;> simp

/-- The app readiness loop performs at most `fu` probes. -/
theorem appPollCount_appWaitLoop_le (env : DeployEnv) (a fu : Nat) :
    appPollCount (appWaitLoop env a fu).1 ≤ fu := by
  induction fu generalizing a with
  | zero => simp [appWaitLoop, appPollCount]
  | succ fu ih =>
    rcases hp : env.appPoll a with _ | b
    · simpa [appWaitLoop, hp, appPollCount] using Nat.succ_le_succ (ih (a + 1))
    · cases b with
      | true => simp [appWaitLoop, hp, appPollCount]
      | false => simpa [appWaitLoop, hp, appPollCount] using Nat.succ_le_succ (ih (a + 1))

/-- The app wait step performs at most `maxAttempts` probes. -/
theorem appPollCount_appWaitStep_le (env : DeployEnv) :
    appPollCount (appWaitStep env).1 ≤ maxAttempts := by
  rcases hr : (appWaitLoop env 0 maxAttempts).2 <;>
    simp [appWaitStep, hr, appPollCount, List.countP_append] <;>
    simpa [appPollCount] using appPollCount_appWaitLoop_le env 0 maxAttempts

/-! ### Loop outcome lemmas -/

/-- When the PostgreSQL readiness loop reports success, some probe within its
attempt window observed `Running`, and that probe is the unique successful
probe the loop recorded. -/
theorem pgWaitLoop_found (env : DeployEnv) (a fu : Nat)
    (h : (pgWaitLoop env a fu).2 = true) :
    ∃ i, a ≤ i ∧ i < a + fu ∧ env.pgPoll i = some true ∧
      keyEvents (pgWaitLoop env a fu).1 = [DEv.pgPollEv i (some true)] := by
  induction fu generalizing a with
  | zero => simp [pgWaitLoop] at h
  | succ fu ih =>
    rcases hp : env.pgPoll a with _ | b
    · rw [pgWaitLoop, hp] at h
      obtain ⟨i, h1, h2, h3, h4⟩ := ih (a + 1) h
      exact ⟨i, by omega, by omega, h3, by simp [pgWaitLoop, hp, keyEvents] at h4 ⊢; exact h4⟩
    · cases b with
      | true =>
        exact ⟨a, Nat.le_refl a, by omega, hp, by simp [pgWaitLoop, hp, keyEvents]⟩
      | false =>
        rw [pgWaitLoop, hp] at h
        obtain ⟨i, h1, h2, h3, h4⟩ := ih (a + 1) h
        exact ⟨i, by omega, by omega, h3, by simp [pgWaitLoop, hp, keyEvents] at h4 ⊢; exact h4⟩

/-- When the app readiness loop never observes `Running` within its window, it
reports failure. -/
theorem appWaitLoop_not_found (env : DeployEnv) (a fu : Nat)
    (h : ∀ i, a ≤ i → i < a + fu → env.appPoll i ≠ some true) :
    (appWaitLoop env a fu).2 = false := by
  induction fu generalizing a with
  | zero => simp [appWaitLoop]
  | succ fu ih =>
    rcases hp : env.appPoll a with _ | b
    · rw [appWaitLoop, hp]
      exact ih (a + 1) (fun i h1 h2 => h i (by omega) (by omega))
    · cases b with
      | true => exact absurd hp (h a (Nat.le_refl a) (by omega))
      | false =>
        rw [appWaitLoop, hp]
        exact ih (a + 1) (fun i h1 h2 => h i (by omega) (by omega))

/-- The manifest loop of a stateful-store project, with every branch resolved
explicitly (server.js lines 1045-1064). -/
theorem applyFiles_pg_eq (env : DeployEnv)
    (hs : env.pgSecretExists = true) (hv : env.pgServiceExists = true)
    (hw : env.pgStatefulSetExists = true) :
    applyFiles env postgresFiles =
      if env.applyOk "postgres-secret.yaml" = false then
        ([DEv.log "Applying postgres-secret.yaml...",
          DEv.error "Failed to apply postgres-secret.yaml"], false)
      else if env.applyOk "postgres-service.yaml" = false then
        ([DEv.log "Applying postgres-secret.yaml...",
          DEv.applyRes env.metaNamespace "postgres-secret.yaml",
          DEv.log "Applying postgres-service.yaml...",
          DEv.error "Failed to apply postgres-service.yaml"], false)
      else if env.applyOk "postgres-statefulset.yaml" = false then
        ([DEv.log "Applying postgres-secret.yaml...",
          DEv.applyRes env.metaNamespace "postgres-secret.yaml",
          DEv.log "Applying postgres-service.yaml...",
          DEv.applyRes env.metaNamespace "postgres-service.yaml",
          DEv.log "Applying postgres-statefulset.yaml...",
          DEv.error "Failed to apply postgres-statefulset.yaml"], false)
      else
        ([DEv.log "Applying postgres-secret.yaml...",
          DEv.applyRes env.metaNamespace "postgres-secret.yaml",
          DEv.log "Applying postgres-service.yaml...",
          DEv.applyRes env.metaNamespace "postgres-service.yaml",
          DEv.log "Applying postgres-statefulset.yaml...",
          DEv.applyRes env.metaNamespace "postgres-statefulset.yaml"], true) := by
  by_cases h1 : env.applyOk "postgres-secret.yaml" = false <;>
    by_cases h2 : env.applyOk "postgres-service.yaml" = false <;>
    by_cases h3 : env.applyOk "postgres-statefulset.yaml" = false <;>
    simp_all [applyFiles, postgresFiles, pgFileExists]

/-- Master classification of deploy-stream events: every event is a log, an
error, a PostgreSQL probe, a PostgreSQL manifest apply — or belongs to the
app phase, which is reached only when the directory check, namespace step,
manifest loop, PostgreSQL wait and deployment apply all succeeded (and the
later app-phase events additionally require the service apply, resp. app
readiness, to have succeeded). -/
theorem mem_deployStream (env : DeployEnv) :
    ∀ e ∈ deployStream env,
      (∃ m, e = DEv.log m) ∨ (∃ m, e = DEv.error m) ∨
      (∃ i r, e = DEv.pgPollEv i r) ∨
      (∃ f, f ∈ postgresFiles ∧ e = DEv.applyRes env.metaNamespace f) ∨
      ((env.k8sDirExists = true ∧ (nsStep env).2 = true ∧
        (applyFiles env postgresFiles).2 = true ∧ (pgWaitStep env).2 = true ∧
        env.applyOk "deployment.yaml" = true) ∧
       (e = DEv.applyRes env.metaNamespace "deployment.yaml" ∨
        (env.applyOk "service.yaml" = true ∧
         (e = DEv.applyRes env.metaNamespace "service.yaml" ∨
          (∃ i r, e = DEv.appPollEv i r) ∨
          ((appWaitStep env).2 = true ∧ e = DEv.success))))) := by
  intro e he
  cases hk : env.k8sDirExists with
  | false =>
    simp [deployStream, hk] at he
    rcases he with rfl | rfl
    · exact Or.inl ⟨_, rfl⟩
    · exact Or.inr (Or.inl ⟨_, rfl⟩)
  | true =>
    cases hn : (nsStep env).2 with
    | false =>
      simp [deployStream, hk, hn] at he
      rcases he with rfl | h
      · exact Or.inl ⟨_, rfl⟩
      · rcases mem_nsStep env e h with h | h
        · exact Or.inl h
        · exact Or.inr (Or.inl h)
    | true =>
      cases ha : (applyFiles env postgresFiles).2 with
      | false =>
        simp [deployStream, hk, hn, ha] at he
        rcases he with rfl | h | h | rfl | h
        · exact Or.inl ⟨_, rfl⟩
        · rcases mem_nsStep env e h with h | h
          · exact Or.inl h
          · exact Or.inr (Or.inl h)
        · exact Or.inl (mem_buildStep env e h)
        · exact Or.inl ⟨_, rfl⟩
        · rcases mem_applyFiles env postgresFiles e h with h | h | h
          · exact Or.inl h
          · exact Or.inr (Or.inl h)
          · exact Or.inr (Or.inr (Or.inr (Or.inl h)))
      | true =>
        cases hwz : (pgWaitStep env).2 with
        | false =>
          simp [deployStream, hk, hn, ha, hwz] at he
          rcases he with rfl | h | h | rfl | h | h
          · exact Or.inl ⟨_, rfl⟩
          · rcases mem_nsStep env e h with h | h
            · exact Or.inl h
            · exact Or.inr (Or.inl h)
          · exact Or.inl (mem_buildStep env e h)
          · exact Or.inl ⟨_, rfl⟩
          · rcases mem_applyFiles env postgresFiles e h with h | h | h
            · exact Or.inl h
            · exact Or.inr (Or.inl h)
            · exact Or.inr (Or.inr (Or.inr (Or.inl h)))
          · rcases mem_pgWaitStep env e h with h | h | h
            · exact Or.inr (Or.inr (Or.inl h))
            · exact Or.inl h
            · exact Or.inr (Or.inl h)
        | true =>
          cases hdp : env.applyOk "deployment.yaml" with
          | false =>
            simp [deployStream, hk, hn, ha, hwz, hdp] at he
            rcases he with rfl | h | h | rfl | h | h | rfl
            · exact Or.inl ⟨_, rfl⟩
            · rcases mem_nsStep env e h with h | h
              · exact Or.inl h
              · exact Or.inr (Or.inl h)
            · exact Or.inl (mem_buildStep env e h)
            · exact Or.inl ⟨_, rfl⟩
            · rcases mem_applyFiles env postgresFiles e h with h | h | h
              · exact Or.inl h
              · exact Or.inr (Or.inl h)
              · exact Or.inr (Or.inr (Or.inr (Or.inl h)))
            · rcases mem_pgWaitStep env e h with h | h | h
              · exact Or.inr (Or.inr (Or.inl h))
              · exact Or.inl h
              · exact Or.inr (Or.inl h)
            · exact Or.inr (Or.inl ⟨_, rfl⟩)
          | true =>
            cases hsv : env.applyOk "service.yaml" with
            | false =>
              simp [deployStream, hk, hn, ha, hwz, hdp, hsv] at he
              rcases he with rfl | h | h | rfl | h | h | rfl | rfl | rfl
              · exact Or.inl ⟨_, rfl⟩
              · rcases mem_nsStep env e h with h | h
                · exact Or.inl h
                · exact Or.inr (Or.inl h)
              · exact Or.inl (mem_buildStep env e h)
              · exact Or.inl ⟨_, rfl⟩
              · rcases mem_applyFiles env postgresFiles e h with h | h | h
                · exact Or.inl h
                · exact Or.inr (Or.inl h)
                · exact Or.inr (Or.inr (Or.inr (Or.inl h)))
              · rcases mem_pgWaitStep env e h with h | h | h
                · exact Or.inr (Or.inr (Or.inl h))
                · exact Or.inl h
                · exact Or.inr (Or.inl h)
              · exact Or.inr (Or.inr (Or.inr (Or.inr
                  ⟨⟨rfl, rfl, rfl, rfl, rfl⟩, Or.inl rfl⟩)))
              · exact Or.inl ⟨_, rfl⟩
              · exact Or.inr (Or.inl ⟨_, rfl⟩)
            | true =>
              cases haw : (appWaitStep env).2 with
              | false =>
                simp [deployStream, hk, hn, ha, hwz, hdp, hsv, haw] at he
                rcases he with rfl | h | h | rfl | h | h | rfl | rfl | rfl | h
                · exact Or.inl ⟨_, rfl⟩
                · rcases mem_nsStep env e h with h | h
                  · exact Or.inl h
                  · exact Or.inr (Or.inl h)
                · exact Or.inl (mem_buildStep env e h)
                · exact Or.inl ⟨_, rfl⟩
                · rcases mem_applyFiles env postgresFiles e h with h | h | h
                  · exact Or.inl h
                  · exact Or.inr (Or.inl h)
                  · exact Or.inr (Or.inr (Or.inr (Or.inl h)))
                · rcases mem_pgWaitStep env e h with h | h | h
                  · exact Or.inr (Or.inr (Or.inl h))
                  · exact Or.inl h
                  · exact Or.inr (Or.inl h)
                · exact Or.inr (Or.inr (Or.inr (Or.inr
                    ⟨⟨rfl, rfl, rfl, rfl, rfl⟩, Or.inl rfl⟩)))
                · exact Or.inl ⟨_, rfl⟩
                · exact Or.inr (Or.inr (Or.inr (Or.inr
                    ⟨⟨rfl, rfl, rfl, rfl, rfl⟩, Or.inr ⟨rfl, Or.inl rfl⟩⟩)))
                · rcases mem_appWaitStep env e h with h | h | h
                  · exact Or.inr (Or.inr (Or.inr (Or.inr
                      ⟨⟨rfl, rfl, rfl, rfl, rfl⟩, Or.inr ⟨rfl, Or.inr (Or.inl h)⟩⟩)))
                  · exact Or.inl h
                  · exact Or.inr (Or.inl h)
              | true =>
                simp [deployStream, hk, hn, ha, hwz, hdp, hsv, haw] at he
                rcases he with rfl | h | h | rfl | h | h | rfl | rfl | rfl | h | h
                · exact Or.inl ⟨_, rfl⟩
                · rcases mem_nsStep env e h with h | h
                  · exact Or.inl h
                  · exact Or.inr (Or.inl h)
                · exact Or.inl (mem_buildStep env e h)
                · exact Or.inl ⟨_, rfl⟩
                · rcases mem_applyFiles env postgresFiles e h with h | h | h
                  · exact Or.inl h
                  · exact Or.inr (Or.inl h)
                  · exact Or.inr (Or.inr (Or.inr (Or.inl h)))
                · rcases mem_pgWaitStep env e h with h | h | h
                  · exact Or.inr (Or.inr (Or.inl h))
                  · exact Or.inl h
                  · exact Or.inr (Or.inl h)
                · exact Or.inr (Or.inr (Or.inr (Or.inr
                    ⟨⟨rfl, rfl, rfl, rfl, rfl⟩, Or.inl rfl⟩)))
                · exact Or.inl ⟨_, rfl⟩
                · exact Or.inr (Or.inr (Or.inr (Or.inr
                    ⟨⟨rfl, rfl, rfl, rfl, rfl⟩, Or.inr ⟨rfl, Or.inl rfl⟩⟩)))
                · rcases mem_appWaitStep env e h with h | h | h
                  · exact Or.inr (Or.inr (Or.inr (Or.inr
                      ⟨⟨rfl, rfl, rfl, rfl, rfl⟩, Or.inr ⟨rfl, Or.inr (Or.inl h)⟩⟩)))
                  · exact Or.inl h
                  · exact Or.inr (Or.inl h)
                · rcases mem_logsSuccessStep env e h with h | rfl
                  · exact Or.inl h
                  · exact Or.inr (Or.inr (Or.inr (Or.inr
                      ⟨⟨rfl, rfl, rfl, rfl, rfl⟩,
                       Or.inr ⟨rfl, Or.inr (Or.inr ⟨rfl, rfl⟩)⟩⟩)))

/-! ### Small computation rules for the trace projections -/

theorem applyOrder_append (l1 l2 : List DEv) :
    applyOrder (l1 ++ l2) = applyOrder l1 ++ applyOrder l2 :=
  List.filterMap_append l1 l2 _

theorem applyOrder_nil : applyOrder [] = [] := rfl

theorem applyOrder_cons_log (m : String) (l : List DEv) :
    applyOrder (DEv.log m :: l) = applyOrder l := by
  simp [applyOrder, List.filterMap_cons]

theorem applyOrder_cons_error (m : String) (l : List DEv) :
    applyOrder (DEv.error m :: l) = applyOrder l := by
  simp [applyOrder, List.filterMap_cons]

theorem applyOrder_cons_apply (ns : Option String) (f : String) (l : List DEv) :
    applyOrder (DEv.applyRes ns f :: l) = (ns, f) :: applyOrder l := by
  simp [applyOrder, List.filterMap_cons]

theorem keyEvents_append (l1 l2 : List DEv) :
    keyEvents (l1 ++ l2) = keyEvents l1 ++ keyEvents l2 :=
  List.filter_append _ _

theorem keyEvents_nil : keyEvents [] = [] := rfl

theorem keyEvents_cons_log (m : String) (l : List DEv) :
    keyEvents (DEv.log m :: l) = keyEvents l := by
  simp [keyEvents]

theorem keyEvents_cons_error (m : String) (l : List DEv) :
    keyEvents (DEv.error m :: l) = keyEvents l := by
  simp [keyEvents]

theorem keyEvents_cons_apply (ns : Option String) (f : String) (l : List DEv) :
    keyEvents (DEv.applyRes ns f :: l) = DEv.applyRes ns f :: keyEvents l := by
  simp [keyEvents]

theorem appPollCount_append (l1 l2 : List DEv) :
    appPollCount (l1 ++ l2) = appPollCount l1 + appPollCount l2 :=
  List.countP_append _ _ _

theorem appPollCount_nil : appPollCount [] = 0 := rfl

theorem appPollCount_cons_log (m : String) (l : List DEv) :
    appPollCount (DEv.log m :: l) = appPollCount l := by
  simp [appPollCount, List.countP_cons]

theorem appPollCount_cons_error (m : String) (l : List DEv) :
    appPollCount (DEv.error m :: l) = appPollCount l := by
  simp [appPollCount, List.countP_cons]

theorem appPollCount_cons_apply (ns : Option String) (f : String) (l : List DEv) :
    appPollCount (DEv.applyRes ns f :: l) = appPollCount l := by
  simp [appPollCount, List.countP_cons]

theorem appPollCount_cons_success (l : List DEv) :
    appPollCount (DEv.success :: l) = appPollCount l := by
  simp [appPollCount, List.countP_cons]

/-- The manifest loop of a stateful-store run only continues when all three
PostgreSQL applies succeeded. -/
theorem applyFiles_pg_ok (env : DeployEnv)
    (hs : env.pgSecretExists = true) (hv : env.pgServiceExists = true)
    (hw : env.pgStatefulSetExists = true)
    (ha : (applyFiles env postgresFiles).2 = true) :
    env.applyOk "postgres-secret.yaml" = true ∧
    env.applyOk "postgres-service.yaml" = true ∧
    env.applyOk "postgres-statefulset.yaml" = true := by
  rw [applyFiles_pg_eq env hs hv hw] at ha
  by_cases h1 : env.applyOk "postgres-secret.yaml" = false <;>
    by_cases h2 : env.applyOk "postgres-service.yaml" = false <;>
    by_cases h3 : env.applyOk "postgres-statefulset.yaml" = false <;>
    simp [h1, h2, h3] at ha ⊢

/-- A successful PostgreSQL wait step of a stateful-store run: some probe
within the attempt bound observed `Running`, and it is the step's unique
successful probe. -/
theorem pgWaitStep_found (env : DeployEnv)
    (hw : env.pgStatefulSetExists = true) (hz : (pgWaitStep env).2 = true) :
    ∃ i, i < maxPgAttempts ∧ env.pgPoll i = some true ∧
      keyEvents (pgWaitStep env).1 = [DEv.pgPollEv i (some true)] := by
  have hr : (pgWaitLoop env 0 maxPgAttempts).2 = true := by
    cases hr : (pgWaitLoop env 0 maxPgAttempts).2 with
    | false => simp [pgWaitStep, hw, hr] at hz
    | true => rfl
  obtain ⟨i, h0, h1, h2, h3⟩ := pgWaitLoop_found env 0 maxPgAttempts hr
  refine ⟨i, by omega, h2, ?_⟩
  simpa [pgWaitStep, hw, hr, keyEvents_cons_log] using h3

/-- The apply calls of a stateful-store provisioning run always form a prefix
of the full order secret, service, statefulset, deployment, service — every
run realizes one of the six prefixes. -/
theorem applyOrder_deployStream_cases (env : DeployEnv)
    (hs : env.pgSecretExists = true) (hv : env.pgServiceExists = true)
    (hw : env.pgStatefulSetExists = true) :
    (applyOrder (deployStream env)).map Prod.snd = [] ∨
    (applyOrder (deployStream env)).map Prod.snd = ["postgres-secret.yaml"] ∨
    (applyOrder (deployStream env)).map Prod.snd =
      ["postgres-secret.yaml", "postgres-service.yaml"] ∨
    (applyOrder (deployStream env)).map Prod.snd =
      ["postgres-secret.yaml", "postgres-service.yaml", "postgres-statefulset.yaml"] ∨
    (applyOrder (deployStream env)).map Prod.snd =
      ["postgres-secret.yaml", "postgres-service.yaml", "postgres-statefulset.yaml",
       "deployment.yaml"] ∨
    (applyOrder (deployStream env)).map Prod.snd = fullApplyOrder := by
  have hfe := applyFiles_pg_eq env hs hv hw
  cases hk : env.k8sDirExists with
  | false =>
    left
    simp [deployStream, hk, applyOrder_append, applyOrder_cons_log,
          applyOrder_cons_error, applyOrder_nil]
  | true =>
    cases hn : (nsStep env).2 with
    | false =>
      left
      simp [deployStream, hk, hn, applyOrder_append, applyOrder_cons_log,
            applyOrder_nsStep, applyOrder_nil]
    | true =>
      by_cases h1 : env.applyOk "postgres-secret.yaml" = false
      · left
        rw [if_pos h1] at hfe
        simp [deployStream, hk, hn, hfe, applyOrder_append, applyOrder_cons_log,
              applyOrder_cons_error, applyOrder_nsStep, applyOrder_buildStep,
              applyOrder_nil]
      · by_cases h2 : env.applyOk "postgres-service.yaml" = false
        · right; left
          rw [if_neg h1, if_pos h2] at hfe
          simp [deployStream, hk, hn, hfe, applyOrder_append, applyOrder_cons_log,
                applyOrder_cons_error, applyOrder_cons_apply, applyOrder_nsStep,
                applyOrder_buildStep, applyOrder_nil]
        · by_cases h3 : env.applyOk "postgres-statefulset.yaml" = false
          · right; right; left
            rw [if_neg h1, if_neg h2, if_pos h3] at hfe
            simp [deployStream, hk, hn, hfe, applyOrder_append, applyOrder_cons_log,
                  applyOrder_cons_error, applyOrder_cons_apply, applyOrder_nsStep,
                  applyOrder_buildStep, applyOrder_nil]
          · rw [if_neg h1, if_neg h2, if_neg h3] at hfe
            cases hwz : (pgWaitStep env).2 with
            | false =>
              right; right; right; left
              simp [deployStream, hk, hn, hfe, hwz, applyOrder_append,
                    applyOrder_cons_log, applyOrder_cons_error, applyOrder_cons_apply,
                    applyOrder_nsStep, applyOrder_buildStep, applyOrder_pgWaitStep,
                    applyOrder_nil]
            | true =>
              cases hdp : env.applyOk "deployment.yaml" with
              | false =>
                right; right; right; left
                simp [deployStream, hk, hn, hfe, hwz, hdp, applyOrder_append,
                      applyOrder_cons_log, applyOrder_cons_error, applyOrder_cons_apply,
                      applyOrder_nsStep, applyOrder_buildStep, applyOrder_pgWaitStep,
                      applyOrder_nil]
              | true =>
                cases hsv : env.applyOk "service.yaml" with
                | false =>
                  right; right; right; right; left
                  simp [deployStream, hk, hn, hfe, hwz, hdp, hsv, applyOrder_append,
                        applyOrder_cons_log, applyOrder_cons_error,
                        applyOrder_cons_apply, applyOrder_nsStep, applyOrder_buildStep,
                        applyOrder_pgWaitStep, applyOrder_nil]
                | true =>
                  right; right; right; right; right
                  cases haw : (appWaitStep env).2 with
                  | false =>
                    simp [deployStream, hk, hn, hfe, hwz, hdp, hsv, haw,
                          fullApplyOrder, applyOrder_append, applyOrder_cons_log,
                          applyOrder_cons_error, applyOrder_cons_apply,
                          applyOrder_nsStep, applyOrder_buildStep,
                          applyOrder_pgWaitStep, applyOrder_appWaitStep,
                          applyOrder_nil]
                  | true =>
                    simp [deployStream, hk, hn, hfe, hwz, hdp, hsv, haw,
                          fullApplyOrder, applyOrder_append, applyOrder_cons_log,
                          applyOrder_cons_error, applyOrder_cons_apply,
                          applyOrder_nsStep, applyOrder_buildStep,
                          applyOrder_pgWaitStep, applyOrder_appWaitStep,
                          applyOrder_logsSuccessStep, applyOrder_nil]

/-- C1: in every provisioning run of a stateful-store project (all three
PostgreSQL manifests present) the applies form a prefix of
[credential = postgres-secret, stateful endpoint = postgres-service,
stateful workload = postgres-statefulset, app workload = deployment,
app endpoint = service]; and whenever the app workload is applied, some
PostgreSQL readiness probe within the bound observed `Running`, and the
run's applies and successful PostgreSQL probes are exactly credential,
stateful endpoint, stateful workload, the `Running` observation, the app
workload — in that order — optionally followed by the app endpoint: the
stateful workload's apply strictly precedes the app workload's apply, with
the readiness wait between them. -/
theorem c1_stateful_order (env : DeployEnv)
    (hs : env.pgSecretExists = true) (hv : env.pgServiceExists = true)
    (hw : env.pgStatefulSetExists = true) :
    (applyOrder (deployStream env)).map Prod.snd <+: fullApplyOrder ∧
    (DEv.applyRes env.metaNamespace "deployment.yaml" ∈ deployStream env →
      ∃ i, i < maxPgAttempts ∧ env.pgPoll i = some true ∧
        ∃ tl, keyEvents (deployStream env) =
          [DEv.applyRes env.metaNamespace "postgres-secret.yaml",
           DEv.applyRes env.metaNamespace "postgres-service.yaml",
           DEv.applyRes env.metaNamespace "postgres-statefulset.yaml",
           DEv.pgPollEv i (some true),
           DEv.applyRes env.metaNamespace "deployment.yaml"] ++ tl ∧
          (tl = [] ∨ tl = [DEv.applyRes env.metaNamespace "service.yaml"])) := by
  constructor
  · rcases applyOrder_deployStream_cases env hs hv hw with h | h | h | h | h | h <;>
      rw [h] <;> decide
  · intro hd
    rcases mem_deployStream env _ hd with ⟨m, h⟩ | ⟨m, h⟩ | ⟨i, r, h⟩ | ⟨f, hf, h⟩ |
      ⟨⟨hk, hn, ha, hwz, hdp⟩, _⟩
    · simp at h
    · simp at h
    · simp at h
    · rw [DEv.applyRes.injEq] at h
      rw [← h.2] at hf
      simp [postgresFiles] at hf
    · obtain ⟨ho1, ho2, ho3⟩ := applyFiles_pg_ok env hs hv hw ha
      obtain ⟨i, hilt, hpoll, hkey⟩ := pgWaitStep_found env hw hwz
      have hfe2 : applyFiles env postgresFiles =
          ([DEv.log "Applying postgres-secret.yaml...",
            DEv.applyRes env.metaNamespace "postgres-secret.yaml",
            DEv.log "Applying postgres-service.yaml...",
            DEv.applyRes env.metaNamespace "postgres-service.yaml",
            DEv.log "Applying postgres-statefulset.yaml...",
            DEv.applyRes env.metaNamespace "postgres-statefulset.yaml"], true) := by
        rw [applyFiles_pg_eq env hs hv hw, if_neg (by simp [ho1]),
            if_neg (by simp [ho2]), if_neg (by simp [ho3])]
      refine ⟨i, hilt, hpoll, ?_⟩
      cases hsv : env.applyOk "service.yaml" with
      | false =>
        refine ⟨[], ?_, Or.inl rfl⟩
        simp [deployStream, hk, hn, hfe2, hwz, hdp, hsv, keyEvents_append,
              keyEvents_cons_log, keyEvents_cons_error, keyEvents_cons_apply,
              keyEvents_nsStep, keyEvents_buildStep, keyEvents_nil, hkey]
      | true =>
        refine ⟨[DEv.applyRes env.metaNamespace "service.yaml"], ?_, Or.inr rfl⟩
        cases haw : (appWaitStep env).2 with
        | false =>
          simp [deployStream, hk, hn, hfe2, hwz, hdp, hsv, haw, keyEvents_append,
                keyEvents_cons_log, keyEvents_cons_error, keyEvents_cons_apply,
                keyEvents_nsStep, keyEvents_buildStep, keyEvents_appWaitStep,
                keyEvents_nil, hkey]
        | true =>
          simp [deployStream, hk, hn, hfe2, hwz, hdp, hsv, haw, keyEvents_append,
                keyEvents_cons_log, keyEvents_cons_error, keyEvents_cons_apply,
                keyEvents_nsStep, keyEvents_buildStep, keyEvents_appWaitStep,
                keyEvents_logsSuccessStep, keyEvents_nil, hkey]

/-- C1 witness: the all-success stateful-store run. -/
theorem c1_stateful_order_witness :
    (applyOrder (deployStream envAllOk)).map Prod.snd <+: fullApplyOrder ∧
    (DEv.applyRes envAllOk.metaNamespace "deployment.yaml" ∈ deployStream envAllOk →
      ∃ i, i < maxPgAttempts ∧ envAllOk.pgPoll i = some true ∧
        ∃ tl, keyEvents (deployStream envAllOk) =
          [DEv.applyRes envAllOk.metaNamespace "postgres-secret.yaml",
           DEv.applyRes envAllOk.metaNamespace "postgres-service.yaml",
           DEv.applyRes envAllOk.metaNamespace "postgres-statefulset.yaml",
           DEv.pgPollEv i (some true),
           DEv.applyRes envAllOk.metaNamespace "deployment.yaml"] ++ tl ∧
          (tl = [] ∨ tl = [DEv.applyRes envAllOk.metaNamespace "service.yaml"])) :=
  c1_stateful_order envAllOk rfl rfl rfl

theorem getLast?_append_some {α : Type} (l1 l2 : List α) (a : α)
    (h : l2.getLast? = some a) : (l1 ++ l2).getLast? = some a := by
  rw [List.getLast?_append, h]
  rfl

/-- C4: readiness polling is bounded — every run performs at most
`maxAttempts` app probes; and when the app workload never reaches `Running`
within the bound, no `success` event is ever emitted and any run that
reached the polling loop ends with the timeout-tagged error event. -/
theorem c4_poll_bounded (env : DeployEnv)
    (hnr : ∀ i, i < maxAttempts → env.appPoll i ≠ some true) :
    appPollCount (deployStream env) ≤ maxAttempts ∧
    DEv.success ∉ deployStream env ∧
    ((∃ i r, DEv.appPollEv i r ∈ deployStream env) →
      (deployStream env).getLast? = some (DEv.error "Timeout waiting for pod to start")) := by
  have hloop : (appWaitLoop env 0 maxAttempts).2 = false :=
    appWaitLoop_not_found env 0 maxAttempts (fun i h1 h2 => hnr i (by omega))
  have hstep2 : (appWaitStep env).2 = false := by simp [appWaitStep, hloop]
  have hstep1 : (appWaitStep env).1 =
      DEv.log "Waiting for pod to be ready..." ::
        ((appWaitLoop env 0 maxAttempts).1 ++
          [DEv.error "Timeout waiting for pod to start"]) := by
    simp [appWaitStep, hloop]
  have hlast : (appWaitStep env).1.getLast? =
      some (DEv.error "Timeout waiting for pod to start") := by
    rw [hstep1]
    rw [show DEv.log "Waiting for pod to be ready..." ::
          ((appWaitLoop env 0 maxAttempts).1 ++
            [DEv.error "Timeout waiting for pod to start"]) =
        (DEv.log "Waiting for pod to be ready..." ::
          (appWaitLoop env 0 maxAttempts).1) ++
          [DEv.error "Timeout waiting for pod to start"] from by simp]
    exact List.getLast?_concat _
  refine ⟨?_, ?_, ?_⟩
  · -- bounded probe count, by the same branch analysis as the apply order
    cases hk : env.k8sDirExists with
    | false =>
      simp [deployStream, hk, appPollCount_append, appPollCount_cons_log,
            appPollCount_cons_error, appPollCount_nil]
    | true =>
      cases hn : (nsStep env).2 with
      | false =>
        simp [deployStream, hk, hn, appPollCount_append, appPollCount_cons_log,
              appPollCount_nsStep, appPollCount_nil]
      | true =>
        cases ha : (applyFiles env postgresFiles).2 with
        | false =>
          simp [deployStream, hk, hn, ha, appPollCount_append,
                appPollCount_cons_log, appPollCount_nsStep, appPollCount_buildStep,
                appPollCount_applyFiles, appPollCount_nil]
        | true =>
          cases hwz : (pgWaitStep env).2 with
          | false =>
            simp [deployStream, hk, hn, ha, hwz, appPollCount_append,
                  appPollCount_cons_log, appPollCount_nsStep, appPollCount_buildStep,
                  appPollCount_applyFiles, appPollCount_pgWaitStep, appPollCount_nil]
          | true =>
            cases hdp : env.applyOk "deployment.yaml" with
            | false =>
              simp [deployStream, hk, hn, ha, hwz, hdp, appPollCount_append,
                    appPollCount_cons_log, appPollCount_cons_error,
                    appPollCount_nsStep, appPollCount_buildStep,
                    appPollCount_applyFiles, appPollCount_pgWaitStep,
                    appPollCount_nil]
            | true =>
              cases hsv : env.applyOk "service.yaml" with
              | false =>
                simp [deployStream, hk, hn, ha, hwz, hdp, hsv, appPollCount_append,
                      appPollCount_cons_log, appPollCount_cons_error,
                      appPollCount_cons_apply, appPollCount_nsStep,
                      appPollCount_buildStep, appPollCount_applyFiles,
                      appPollCount_pgWaitStep, appPollCount_nil]
              | true =>
                simp [deployStream, hk, hn, ha, hwz, hdp, hsv, hstep2,
                      appPollCount_append, appPollCount_cons_log,
                      appPollCount_cons_error, appPollCount_cons_apply,
                      appPollCount_nsStep, appPollCount_buildStep,
                      appPollCount_applyFiles, appPollCount_pgWaitStep,
                      appPollCount_nil]
                exact appPollCount_appWaitStep_le env
  · -- no success event
    intro hsx
    rcases mem_deployStream env _ hsx with ⟨m, h⟩ | ⟨m, h⟩ | ⟨i, r, h⟩ | ⟨f, hf, h⟩ |
      ⟨-, h | ⟨-, h | h | ⟨haw2, -⟩⟩⟩
    · simp at h
    · simp at h
    · simp at h
    · simp at h
    · simp at h
    · simp at h
    · rcases h with ⟨i, r, h⟩
      simp at h
    · rw [haw2] at hstep2
      exact absurd hstep2 (by simp)
  · -- the stream ends with the timeout error
    intro hex
    obtain ⟨i, r, hm⟩ := hex
    rcases mem_deployStream env _ hm with ⟨m, h⟩ | ⟨m, h⟩ | ⟨j, r2, h⟩ | ⟨f, hf, h⟩ |
      ⟨⟨hk, hn, ha, hwz, hdp⟩, h | ⟨hsv, h | h | ⟨haw2, -⟩⟩⟩
    · simp at h
    · simp at h
    · simp at h
    · simp at h
    · simp at h
    · simp at h
    · have heq : deployStream env =
          ([DEv.log "Starting deployment..."] ++ (nsStep env).1 ++ (buildStep env).1
            ++ [DEv.log "Applying Kubernetes deployment..."]
            ++ (applyFiles env postgresFiles).1 ++ (pgWaitStep env).1
            ++ [DEv.applyRes env.metaNamespace "deployment.yaml",
                DEv.log "Applying Kubernetes service...",
                DEv.applyRes env.metaNamespace "service.yaml"])
          ++ (appWaitStep env).1 := by
        simp [deployStream, hk, hn, ha, hwz, hdp, hsv, hstep2]
      rw [heq]
      exact getLast?_append_some _ _ _ hlast
    · rw [haw2] at hstep2
      exact absurd hstep2 (by simp)

/-- C4 witness: a run where the app pod reports `Pending` forever. -/
theorem c4_poll_bounded_witness :
    appPollCount (deployStream envAppStuck) ≤ maxAttempts ∧
    DEv.success ∉ deployStream envAppStuck ∧
    ((∃ i r, DEv.appPollEv i r ∈ deployStream envAppStuck) →
      (deployStream envAppStuck).getLast? =
        some (DEv.error "Timeout waiting for pod to start")) :=
  c4_poll_bounded envAppStuck (by decide)

/-- C7 counterexample: in the all-success stateful-store run the applies come
out as secret, service, statefulset, deployment, app-service — the stateful
ENDPOINT (postgres-service) is applied strictly BEFORE the stateful WORKLOAD
(postgres-statefulset), not after it as the claim orders them. -/
theorem c7_order_counterexample :
    (applyOrder (deployStream envAllOk)).map Prod.snd = fullApplyOrder ∧
    ((applyOrder (deployStream envAllOk)).map Prod.snd).indexOf "postgres-service.yaml" <
      ((applyOrder (deployStream envAllOk)).map Prod.snd).indexOf
        "postgres-statefulset.yaml" ∧
    (applyOrder (deployStream envAllOk)).map Prod.snd ≠
      ["postgres-secret.yaml", "postgres-statefulset.yaml", "postgres-service.yaml",
       "deployment.yaml", "service.yaml"] := by
  decide

/-- C7 as amended: the ResourceSet ordering invariant of every stateful-store
run is credential, then stateful ENDPOINT, then stateful WORKLOAD, then
(after the wait) app workload, then app endpoint: the applies form a prefix
of that order, and whenever the stateful workload is applied the first three
applies are exactly credential, stateful endpoint, stateful workload. -/
theorem c7_order_invariant (env : DeployEnv)
    (hs : env.pgSecretExists = true) (hv : env.pgServiceExists = true)
    (hw : env.pgStatefulSetExists = true) :
    (applyOrder (deployStream env)).map Prod.snd <+: fullApplyOrder ∧
    ("postgres-statefulset.yaml" ∈ (applyOrder (deployStream env)).map Prod.snd →
      ((applyOrder (deployStream env)).map Prod.snd).take 3 =
        ["postgres-secret.yaml", "postgres-service.yaml",
         "postgres-statefulset.yaml"]) := by
  rcases applyOrder_deployStream_cases env hs hv hw with h | h | h | h | h | h <;>
    rw [h] <;> exact ⟨by decide, by decide⟩

/-- C7 amended witness. -/
theorem c7_order_invariant_witness :
    (applyOrder (deployStream envAllOk)).map Prod.snd <+: fullApplyOrder ∧
    ("postgres-statefulset.yaml" ∈ (applyOrder (deployStream envAllOk)).map Prod.snd →
      ((applyOrder (deployStream envAllOk)).map Prod.snd).take 3 =
        ["postgres-secret.yaml", "postgres-service.yaml",
         "postgres-statefulset.yaml"]) :=
  c7_order_invariant envAllOk rfl rfl rfl

/-- C9 counterexample: a run whose metadata names the system-reserved
namespace `kube-system` — which `validateNamespace` would reject — still
passes that namespace straight into the cluster apply calls: the deploy path
never validates the placement it uses. -/
theorem c9_namespace_counterexample :
    envKubeNs.metaNamespace = some "kube-system" ∧
    validateNamespace "kube-system" = false ∧
    DEv.applyRes (some "kube-system") "deployment.yaml" ∈ deployStream envKubeNs := by
  decide

/-- C9 as amended: `validateNamespace` does implement the DNS-label pattern
with the fixed denylist, but no deploy-path code invokes it — whatever
namespace the metadata carries (validated or not, denylisted or not) is the
namespace every cluster apply of the run uses. -/
theorem c9_namespace_unvalidated (env : DeployEnv) (ns : String)
    (h : env.metaNamespace = some ns) :
    (∀ x ∈ FORBIDDEN_NAMESPACES, validateNamespace x = false) ∧
    (∀ ns2 f, DEv.applyRes ns2 f ∈ deployStream env → ns2 = some ns) := by
  refine ⟨by decide, ?_⟩
  intro ns2 f hm
  rcases mem_deployStream env _ hm with ⟨m, h2⟩ | ⟨m, h2⟩ | ⟨i, r, h2⟩ | ⟨g, hg, h2⟩ |
    ⟨-, h2 | ⟨-, h2 | h2 | ⟨-, h2⟩⟩⟩
  · simp at h2
  · simp at h2
  · simp at h2
  · rw [DEv.applyRes.injEq] at h2
    rw [h2.1, h]
  · rw [DEv.applyRes.injEq] at h2
    rw [h2.1, h]
  · rw [DEv.applyRes.injEq] at h2
    rw [h2.1, h]
  · rcases h2 with ⟨i, r, h2⟩
    simp at h2
  · simp at h2

/-- C9 amended witness. -/
theorem c9_namespace_unvalidated_witness :
    (∀ x ∈ FORBIDDEN_NAMESPACES, validateNamespace x = false) ∧
    (∀ ns2 f, DEv.applyRes ns2 f ∈ deployStream envKubeNs → ns2 = some "kube-system") :=
  c9_namespace_unvalidated envKubeNs "kube-system" rfl

/-- C5 counterexample: when the app-workload (deployment) delete throws, the
app-endpoint delete and all four PostgreSQL deletes are never attempted
(only the kubernetes.error field records the failure), while local-artifact
deletion still runs — one resource's failure DOES prevent sibling cluster
deletes. -/
theorem c5_teardown_counterexample :
    execOk envDepFail.delDeployment = false ∧
    CRes.deployment ∈ (cleanupRun envDepFail).1 ∧
    CRes.service ∉ (cleanupRun envDepFail).1 ∧
    CRes.pgStatefulSet ∉ (cleanupRun envDepFail).1 ∧
    CRes.pgService ∉ (cleanupRun envDepFail).1 ∧
    CRes.pgSecret ∉ (cleanupRun envDepFail).1 ∧
    CRes.pgPvc ∉ (cleanupRun envDepFail).1 ∧
    (cleanupRun envDepFail).2.1.kubernetes.error = some "connection refused" ∧
    CRes.localDir ∈ (cleanupRun envDepFail).1 := by
  decide

/-- C5 as amended: GitHub-delete failures never prevent the cluster or local
deletes, failures of individual PostgreSQL deletes never prevent each other
(their outcomes are recorded per resource), and local-artifact deletion is
attempted regardless of earlier failures; BUT a failure of the app-workload
delete aborts the app-endpoint and PostgreSQL deletes of that run, recorded
only in the aggregate kubernetes.error field. -/
theorem c5_teardown_isolation (env : CleanupEnv)
    (hmeta : (env.metaExists && env.metaReadError) = false) :
    CRes.deployment ∈ (cleanupRun env).1 ∧
    (execOk env.delDeployment = true → execOk env.delService = true →
      (CRes.pgStatefulSet ∈ (cleanupRun env).1 ∧ CRes.pgService ∈ (cleanupRun env).1 ∧
       CRes.pgSecret ∈ (cleanupRun env).1 ∧ CRes.pgPvc ∈ (cleanupRun env).1) ∧
      (cleanupRun env).2.1.kubernetes.postgres =
        { statefulset := execOk env.delPgStatefulSet,
          service := execOk env.delPgService,
          secret := execOk env.delPgSecret,
          pvc := execOk env.delPgPvc }) ∧
    (execOk env.delDeployment = false →
      CRes.service ∉ (cleanupRun env).1 ∧ CRes.pgStatefulSet ∉ (cleanupRun env).1 ∧
      (cleanupRun env).2.1.kubernetes.error ≠ none) ∧
    (env.localDirExists = true → CRes.localDir ∈ (cleanupRun env).1) := by
  rcases hdep : env.delDeployment with _ | m1 <;>
    rcases hsvc : env.delService with _ | m2 <;>
    rcases hgh : env.githubEnabled <;>
    rcases hgd : env.ghDelete with _ | m3 <;>
    rcases hld : env.localDirExists <;>
    rcases hrm : env.rmLocal with _ | m4 <;>
    simp [cleanupRun, k8sBlock, hmeta, hdep, hsvc, hgh, hgd, hld, hrm, execOk]

/-- C5 amended witness. -/
theorem c5_teardown_isolation_witness :
    CRes.deployment ∈ (cleanupRun envCleanOk).1 ∧
    (execOk envCleanOk.delDeployment = true → execOk envCleanOk.delService = true →
      (CRes.pgStatefulSet ∈ (cleanupRun envCleanOk).1 ∧
       CRes.pgService ∈ (cleanupRun envCleanOk).1 ∧
       CRes.pgSecret ∈ (cleanupRun envCleanOk).1 ∧
       CRes.pgPvc ∈ (cleanupRun envCleanOk).1) ∧
      (cleanupRun envCleanOk).2.1.kubernetes.postgres =
        { statefulset := execOk envCleanOk.delPgStatefulSet,
          service := execOk envCleanOk.delPgService,
          secret := execOk envCleanOk.delPgSecret,
          pvc := execOk envCleanOk.delPgPvc }) ∧
    (execOk envCleanOk.delDeployment = false →
      CRes.service ∉ (cleanupRun envCleanOk).1 ∧
      CRes.pgStatefulSet ∉ (cleanupRun envCleanOk).1 ∧
      (cleanupRun envCleanOk).2.1.kubernetes.error ≠ none) ∧
    (envCleanOk.localDirExists = true → CRes.localDir ∈ (cleanupRun envCleanOk).1) :=
  c5_teardown_isolation envCleanOk rfl

end Scaffolder
